import Mathlib

set_option maxHeartbeats 1000000

/-!
Shallow embedding of the book-library GraphQL resolvers and proofs about
their validation and merge workflow. The repository contains two resolver
variants in one source file: an embedded in-memory array variant (with a
hybrid updateBookInRestApi resolver) and a full proxy variant that
delegates every read and write to an external REST service. We model the
in-memory array as a Lean list, the REST store as explicit state, and an
axios call by its outcome (fulfilled data, connection refused, or any
other rejection).
-/

/-- Errors a resolver can raise: a GraphQLError carrying an extensions
code, a plain JavaScript Error with a message, or a TypeError from
dereferencing null. -/
inductive JsError where
  | graphQLError (msg : String) (code : String)
  | jsError (msg : String)
  | typeError
deriving Repr, DecidableEq

/-- Outcome of one axios call against the backing REST store: fulfilled
with data, rejected with code ECONNREFUSED, or rejected with any other
error carrying a message (an HTTP error status, a timeout, ...). -/
inductive HttpOutcome (α : Type) where
  | ok (data : α)
  | connRefused
  | failure (msg : String)
deriving Repr, DecidableEq

instance {ε α : Type} [DecidableEq ε] [DecidableEq α] :
    DecidableEq (Except ε α) := fun x y =>
  match x, y with
  | .ok a, .ok b => decidable_of_iff (a = b) (by simp)
  | .ok _, .error _ => isFalse (by simp)
  | .error _, .ok _ => isFalse (by simp)
  | .error e, .error f => decidable_of_iff (e = f) (by simp)

/-- JavaScript truthiness of an optional string argument: an absent
(undefined) argument and the empty string are falsy. -/
def jsTruthyS : Option String → Bool
  | none => false
  | some s => !(s == "")

/-- JavaScript truthiness of an optional integer argument: an absent
(undefined) argument and 0 are falsy. -/
def jsTruthyI : Option Int → Bool
  | none => false
  | some n => !(n == 0)

/-- One merge step of the update resolvers, arg ? arg : old, for a
required (non-null) string field. -/
def mergeReqS (arg : Option String) (old : String) : String :=
  if jsTruthyS arg then arg.getD old else old

/-- One merge step of the update resolvers, arg ? arg : old, for an
optional string field. -/
def mergeOptS (arg : Option String) (old : Option String) : Option String :=
  if jsTruthyS arg then arg else old

/-- One merge step of the update resolvers, arg ? arg : old, for an
optional integer field. -/
def mergeOptI (arg : Option Int) (old : Option Int) : Option Int :=
  if jsTruthyI arg then arg else old

/-- Canonicalize a falsy optional string argument to not-provided. -/
def normS (a : Option String) : Option String :=
  if jsTruthyS a then a else none

/-- Canonicalize a falsy optional integer argument to not-provided. -/
def normI (a : Option Int) : Option Int :=
  if jsTruthyI a then a else none

/-- books[findIndex p] := f (books[findIndex p]): rewrite the first
element satisfying p, returning the new array together with the written
element (none when findIndex returned -1). -/
def updateFirst {α : Type} (p : α → Bool) (f : α → α) : List α → List α × Option α
  | [] => ([], none)
  | x :: xs =>
    if p x then (f x :: xs, some (f x))
    else
      let r := updateFirst p f xs
      (x :: r.1, r.2)

/-- books.splice(findIndex p, 1): remove the first element satisfying p,
returning the new array together with the removed element (none when
findIndex returned -1). -/
def deleteFirst {α : Type} (p : α → Bool) : List α → List α × Option α
  | [] => ([], none)
  | x :: xs =>
    if p x then (xs, some x)
    else
      let r := deleteFirst p xs
      (x :: r.1, r.2)

/-- Overwrite the first element satisfying p with y, as a REST PUT on a
store keyed by id does. -/
def replaceFirst {α : Type} (p : α → Bool) (y : α) : List α → List α
  | [] => []
  | x :: xs => if p x then y :: xs else x :: replaceFirst p y xs

/-- The backing collection after a mutation result: the returned state on
success, the previous state when the mutation raised an error before any
write. -/
def stateAfter {σ β : Type} (old : σ) : Except JsError (σ × β) → σ
  | .ok r => r.1
  | .error _ => old

namespace Embedded

/-- A record of the in-memory books array of the embedded variant. The
author is embedded as authorName and authorNationality. -/
structure Book where
  id : String
  title : String
  description : Option String
  isbn : Option String
  publisher : String
  gender : String
  publishYear : Option Int
  authorName : String
  authorNationality : Option String
deriving Repr, DecidableEq

/-- Arguments of the addBook mutation of the embedded variant. -/
structure AddBookArgs where
  title : String
  description : Option String
  isbn : Option String
  publisher : String
  gender : String
  publishYear : Option Int
  authorName : String
  authorNationality : Option String
deriving Repr, DecidableEq

/-- Arguments of the updateBook mutation of the embedded variant: every
field but the id is optional. -/
structure UpdateBookArgs where
  id : String
  title : Option String
  description : Option String
  isbn : Option String
  publisher : Option String
  gender : Option String
  publishYear : Option Int
  authorName : Option String
  authorNationality : Option String
deriving Repr, DecidableEq

/-- Query.getBooksCount: books.length. -/
def getBooksCount (books : List Book) : Nat := books.length

/-- Query.getAllBooks: the books array itself. -/
def getAllBooks (books : List Book) : List Book := books

/-- Mutation.addBook of the embedded variant: reject a duplicate title
with a BAD_USER_INPUT GraphQLError, otherwise push the spread arguments
with a fresh uuid (passed here as newId). -/
def addBook (books : List Book) (args : AddBookArgs) (newId : String) :
    Except JsError (List Book × Book) :=
  if (books.find? (fun b => b.title == args.title)).isSome then
    .error (.graphQLError "Title must be unique" "BAD_USER_INPUT")
  else
    let newBook : Book :=
      { id := newId, title := args.title,
        description := args.description, isbn := args.isbn,
        publisher := args.publisher, gender := args.gender,
        publishYear := args.publishYear, authorName := args.authorName,
        authorNationality := args.authorNationality }
    .ok (books ++ [newBook], newBook)

/-- The merge of the embedded updateBook: each field arg ? arg :
book.field, spread onto the existing record. -/
def mergeBook (args : UpdateBookArgs) (book : Book) : Book :=
  { book with
    title := mergeReqS args.title book.title,
    description := mergeOptS args.description book.description,
    isbn := mergeOptS args.isbn book.isbn,
    publisher := mergeReqS args.publisher book.publisher,
    gender := mergeReqS args.gender book.gender,
    publishYear := mergeOptI args.publishYear book.publishYear,
    authorName := mergeReqS args.authorName book.authorName,
    authorNationality := mergeOptS args.authorNationality book.authorNationality }

/-- Mutation.updateBook of the embedded variant: findIndex by id, return
null when absent, otherwise write the merged record back at that index.
No title-uniqueness check is performed here. -/
def updateBook (books : List Book) (args : UpdateBookArgs) :
    List Book × Option Book :=
  updateFirst (fun b => b.id == args.id) (mergeBook args) books

/-- Mutation.deleteBook of the embedded variant: findIndex by id, return
null when absent, otherwise splice the record out and return it. -/
def deleteBook (books : List Book) (id : String) : List Book × Option Book :=
  deleteFirst (fun b => b.id == id) books

/-- Update arguments with every optional field omitted. -/
def noneArgs (id : String) : UpdateBookArgs :=
  { id := id, title := none, description := none, isbn := none,
    publisher := none, gender := none, publishYear := none,
    authorName := none, authorNationality := none }

/-- Replace every falsy optional argument by not-provided. -/
def normalizeUpdateArgs (a : UpdateBookArgs) : UpdateBookArgs :=
  { id := a.id, title := normS a.title, description := normS a.description,
    isbn := normS a.isbn, publisher := normS a.publisher,
    gender := normS a.gender, publishYear := normI a.publishYear,
    authorName := normS a.authorName,
    authorNationality := normS a.authorNationality }

end Embedded

namespace Hybrid

/-- An axios fulfilled response: the HTTP status and the parsed body. -/
structure AxiosResponse (α : Type) where
  status : Nat
  data : α
deriving Repr, DecidableEq

/-- Mutation.updateBookInRestApi of the embedded-variant file: GET the
record by id with a catch handler that turns any rejection into null,
then read response.status, merge the optional arguments over the fetched
record exactly as the embedded updateBook does, and PUT the result.
getResult is the outcome of the GET; put gives the outcome of the
(uncaught) PUT for the body sent. -/
def updateBookInRestApi
    (getResult : Except JsError (AxiosResponse Embedded.Book))
    (args : Embedded.UpdateBookArgs)
    (put : Embedded.Book → Except JsError Embedded.Book) :
    Except JsError (Option Embedded.Book) :=
  let responseExistsBook : Option (AxiosResponse Embedded.Book) :=
    match getResult with
    | .ok r => some r
    | .error _ => none
  match responseExistsBook with
  | none => .error .typeError
  | some resp =>
    if resp.status == 404 then .ok none
    else
      (put (Embedded.mergeBook args resp.data)).map (fun b => some b)

end Hybrid

namespace Proxy

/-- An author record as stored by the REST backend. -/
structure Author where
  id : String
  name : String
  nationality : Option String
deriving Repr, DecidableEq

/-- A book record as stored by the REST backend. Records created through
this API carry the author as the author_id foreign key and have no
authorName key, so reading record.authorName yields undefined (none);
the field is kept here because the proxy updateBook reads it. -/
structure Book where
  id : String
  title : String
  description : Option String
  isbn : Option String
  publisher : String
  gender : String
  year : Option Int
  author_id : Option String
  authorName : Option String
deriving Repr, DecidableEq

/-- The collections held by the external REST service. -/
structure RestState where
  authors : List Author
  books : List Book
deriving Repr, DecidableEq

/-- Arguments of the proxy addBook mutation. -/
structure AddBookArgs where
  title : String
  description : Option String
  isbn : Option String
  publisher : String
  gender : String
  year : Option Int
  authorId : String
deriving Repr, DecidableEq

/-- Arguments of the proxy updateBook mutation. -/
structure UpdateBookArgs where
  id : String
  title : Option String
  description : Option String
  isbn : Option String
  publisher : Option String
  gender : Option String
  year : Option Int
  authorId : Option String
deriving Repr, DecidableEq

/-- Mutation.addBook of the proxy variant against a reachable backend:
GET /books?title=... and reject a duplicate title; GET
/authors/:authorId, whose 404 rejection for a missing author becomes a
BAD_USER_INPUT error naming the id; then POST the new record, whose
generated identifier is passed here as newId. -/
def addBook (st : RestState) (args : AddBookArgs) (newId : String) :
    Except JsError (RestState × Book) :=
  if 0 < (st.books.filter (fun b => b.title == args.title)).length then
    .error (.graphQLError "El título del libro ya existe" "BAD_USER_INPUT")
  else if (st.authors.find? (fun a => a.id == args.authorId)).isNone then
    .error (.graphQLError ("No existe el autor con el ID: " ++ args.authorId)
      "BAD_USER_INPUT")
  else
    let newBook : Book :=
      { id := newId, title := args.title, description := args.description,
        isbn := args.isbn, publisher := args.publisher,
        gender := args.gender, year := args.year,
        author_id := some args.authorId, authorName := none }
    .ok ({ st with books := st.books ++ [newBook] }, newBook)

/-- The record body built by the proxy updateBook, including the slip of
its last line: the fallback for author_id reads book.authorName instead
of book.author_id. The PUT replaces the stored record with this body, so
the stored authorName key is none afterwards. -/
def mergeBookData (args : UpdateBookArgs) (book : Book) : Book :=
  { id := book.id,
    title := mergeReqS args.title book.title,
    description := mergeOptS args.description book.description,
    isbn := mergeOptS args.isbn book.isbn,
    publisher := mergeReqS args.publisher book.publisher,
    gender := mergeReqS args.gender book.gender,
    year := mergeOptI args.year book.year,
    author_id := if jsTruthyS args.authorId then args.authorId
      else book.authorName,
    authorName := none }

/-- Mutation.updateBook of the proxy variant against a reachable
backend: GET /books/:id, whose 404 rejection becomes a BAD_USER_INPUT
not-found error; when a title is given, GET /books?title=...&id_ne=...
and reject a conflict; when an authorId is given, GET /authors/:id and
reject a missing author; then PUT the merged body. -/
def updateBook (st : RestState) (args : UpdateBookArgs) :
    Except JsError (RestState × Book) :=
  match st.books.find? (fun b => b.id == args.id) with
  | none =>
    .error (.graphQLError ("No existe el libro con el ID: " ++ args.id)
      "BAD_USER_INPUT")
  | some book =>
    if jsTruthyS args.title ∧
        0 < (st.books.filter
          (fun b => some b.title == args.title && !(b.id == args.id))).length then
      .error (.graphQLError "El título del libro ya existe" "BAD_USER_INPUT")
    else if jsTruthyS args.authorId ∧
        (st.authors.find? (fun a => some a.id == args.authorId)).isNone then
      .error (.graphQLError
        ("No existe el autor con el ID: " ++ args.authorId.getD "")
        "BAD_USER_INPUT")
    else
      let updatedBookData := mergeBookData args book
      .ok ({ st with
        books := replaceFirst (fun b => b.id == book.id) updatedBookData
          st.books },
        updatedBookData)

/-- Mutation.deleteBook of the proxy variant against a reachable
backend: GET /books/:id, whose 404 rejection becomes a BAD_USER_INPUT
not-found error; then DELETE the record. -/
def deleteBook (st : RestState) (id : String) :
    Except JsError (RestState × Book) :=
  match st.books.find? (fun b => b.id == id) with
  | none =>
    .error (.graphQLError ("No existe el libro con el ID: " ++ id)
      "BAD_USER_INPUT")
  | some book =>
    let r := deleteFirst (fun b => b.id == id) st.books
    .ok ({ st with books := r.1 }, book)

/-- The body of Query.getAllBooksByAuthorName before its catch handler:
GET /authors?name=... filters by exact name, then author[0].id is read;
when the filter result is empty that dereference of undefined raises a
TypeError; otherwise GET /books?author_id=... filters the books. -/
def getAllBooksByAuthorNameBody (st : RestState) (authorName : String) :
    Except JsError (List Book) :=
  let author := st.authors.filter (fun a => a.name == authorName)
  match author.head? with
  | none => .error .typeError
  | some a => .ok (st.books.filter (fun b => b.author_id == some a.id))

/-- Query.getAllBooksByAuthorName with its catch handler: an error whose
code is not ECONNREFUSED (in particular the TypeError above, whose code
is undefined) yields an empty array. Connection errors cannot arise
against the reachable backend modelled here. -/
def getAllBooksByAuthorName (st : RestState) (authorName : String) :
    Except JsError (List Book) :=
  match getAllBooksByAuthorNameBody st authorName with
  | .ok bs => .ok bs
  | .error _ => .ok []

/-- Mutation.addBook of the proxy variant with the outcome of each of
its three axios calls injected: the title uniqueness GET, the author
existence GET, and the POST. Each catch branch maps ECONNREFUSED to the
fixed infrastructure Error; any other rejection of the first and third
calls is re-raised as an Error with its original message, while any
other rejection of the author existence GET becomes the BAD_USER_INPUT
missing-author GraphQLError. -/
def addBookSteps (authorId : String)
    (titleCheck : HttpOutcome (List Book)) (authorCheck : HttpOutcome Author)
    (post : HttpOutcome Book) : Except JsError Book :=
  match titleCheck with
  | .connRefused => .error (.jsError "Error al conectar con el API")
  | .failure msg => .error (.jsError msg)
  | .ok bs =>
    if 0 < bs.length then
      .error (.graphQLError "El título del libro ya existe" "BAD_USER_INPUT")
    else
      match authorCheck with
      | .connRefused => .error (.jsError "Error al conectar con el API")
      | .failure _ =>
        .error (.graphQLError ("No existe el autor con el ID: " ++ authorId)
          "BAD_USER_INPUT")
      | .ok _ =>
        match post with
        | .connRefused => .error (.jsError "Error al conectar con el API")
        | .failure msg => .error (.jsError msg)
        | .ok bk => .ok bk

/-- Mutation.addAuthor of the proxy variant with the outcome of each of
its two axios calls injected: the name uniqueness GET and the POST. Both
catch branches map ECONNREFUSED to the fixed infrastructure Error and
re-raise any other rejection as an Error with its original message. -/
def addAuthorSteps (nameCheck : HttpOutcome (List Author))
    (post : HttpOutcome Author) : Except JsError Author :=
  match nameCheck with
  | .connRefused => .error (.jsError "Error al conectar con el API")
  | .failure msg => .error (.jsError msg)
  | .ok as1 =>
    if 0 < as1.length then
      .error (.graphQLError "El nombre del autor ya existe" "BAD_USER_INPUT")
    else
      match post with
      | .connRefused => .error (.jsError "Error al conectar con el API")
      | .failure msg => .error (.jsError msg)
      | .ok a => .ok a

/-- Replace every falsy optional argument by not-provided. -/
def normalizeUpdateArgs (a : UpdateBookArgs) : UpdateBookArgs :=
  { id := a.id, title := normS a.title, description := normS a.description,
    isbn := normS a.isbn, publisher := normS a.publisher,
    gender := normS a.gender, year := normI a.year,
    authorId := normS a.authorId }

end Proxy

def sampleArgs : Embedded.AddBookArgs :=
  { title := "X", description := none, isbn := none,
    publisher := "P", gender := "NONE", publishYear := none,
    authorName := "A", authorNationality := none }

def sampleBook : Embedded.Book :=
  { id := "id1", title := "X", description := none, isbn := none,
    publisher := "P", gender := "NONE", publishYear := none,
    authorName := "A", authorNationality := none }

example :
    Embedded.addBook [] sampleArgs "id1" = .ok ([sampleBook], sampleBook) := by
  decide

lemma updateFirst_fst_length {α : Type} (p : α → Bool) (f : α → α) :
    ∀ l : List α, (updateFirst p f l).1.length = l.length := by
  intro l
  induction l with
  | nil => simp [updateFirst]
  | cons x xs ih =>
    by_cases h : p x <;> simp [updateFirst, h, ih]

lemma deleteFirst_of_not_any {α : Type} (p : α → Bool) :
    ∀ l : List α, l.any p = false → deleteFirst p l = (l, none) := by
  intro l
  induction l with
  | nil => intro _; simp [deleteFirst]
  | cons x xs ih =>
    intro h
    simp only [List.any_cons, Bool.or_eq_false_iff] at h
    simp [deleteFirst, h.1, ih h.2]

lemma deleteFirst_length_of_any {α : Type} (p : α → Bool) :
    ∀ l : List α, l.any p = true → (deleteFirst p l).1.length + 1 = l.length := by
  intro l
  induction l with
  | nil => intro h; simp at h
  | cons x xs ih =>
    intro h
    by_cases hx : p x
    · simp [deleteFirst, hx]
    · rw [Bool.not_eq_true] at hx
      simp only [List.any_cons, hx, Bool.false_or] at h
      have hih := ih h
      simp only [deleteFirst, hx, Bool.false_eq_true, if_false, List.length_cons]
      omega


lemma mem_of_mem_replaceFirst {α : Type} (p : α → Bool) (y : α) :
    ∀ (l : List α) (z : α), z ∈ replaceFirst p y l → z = y ∨ z ∈ l := by
  intro l
  induction l with
  | nil => intro z hz; simp [replaceFirst] at hz
  | cons x xs ih =>
    intro z hz
    by_cases hx : p x
    · simp only [replaceFirst, hx, if_true] at hz
      rcases List.mem_cons.1 hz with h | h
      · exact Or.inl h
      · exact Or.inr (List.mem_cons_of_mem _ h)
    · rw [Bool.not_eq_true] at hx
      simp only [replaceFirst, hx, Bool.false_eq_true, if_false] at hz
      rcases List.mem_cons.1 hz with h | h
      · exact Or.inr (h ▸ List.mem_cons_self _ _)
      · rcases ih z h with h2 | h2
        · exact Or.inl h2
        · exact Or.inr (List.mem_cons_of_mem _ h2)

lemma length_filter_key_le_one {α : Type} (g : α → String) (c : String) :
    ∀ l : List α, (l.map g).Nodup →
      (l.filter (fun x => g x == c)).length ≤ 1 := by
  intro l
  induction l with
  | nil => intro _; simp
  | cons x xs ih =>
    intro hnd
    rw [List.map_cons, List.nodup_cons] at hnd
    by_cases hx : g x == c
    · have hc : g x = c := by rwa [beq_iff_eq] at hx
      have hempty : xs.filter (fun z => g z == c) = [] := by
        rw [List.filter_eq_nil_iff]
        intro z hz hzc
        rw [beq_iff_eq] at hzc
        exact hnd.1 (hc ▸ hzc ▸ List.mem_map_of_mem g hz)
      simp [List.filter_cons, hx, hempty]
    · rw [Bool.not_eq_true] at hx
      simp only [List.filter_cons, hx, Bool.false_eq_true, if_false]
      exact ih hnd.2

lemma nodup_map_replaceFirst {α : Type} (f : α → String) (p : α → Bool) (y : α) :
    ∀ l : List α, (l.map f).Nodup → (l.filter p).length ≤ 1 →
      (∀ x ∈ l, p x = false → f x ≠ f y) →
      ((replaceFirst p y l).map f).Nodup := by
  intro l
  induction l with
  | nil => intro _ _ _; simp [replaceFirst]
  | cons x xs ih =>
    intro hnd hone hdiff
    rw [List.map_cons, List.nodup_cons] at hnd
    by_cases hx : p x
    · have hxs : ∀ z ∈ xs, p z = false := by
        intro z hz
        by_contra hzp
        rw [Bool.not_eq_false] at hzp
        have : 2 ≤ ((x :: xs).filter p).length := by
          rw [List.filter_cons_of_pos hx]
          have : z ∈ xs.filter p := List.mem_filter.2 ⟨hz, hzp⟩
          have hpos : 0 < (xs.filter p).length := List.length_pos.2 (by
            intro hnil; rw [hnil] at this; simp at this)
          simp only [List.length_cons]
          omega
        omega
      simp only [replaceFirst, hx, if_true, List.map_cons, List.nodup_cons]
      constructor
      · intro hmem
        rcases List.mem_map.1 hmem with ⟨z, hz, hzf⟩
        exact hdiff z (List.mem_cons_of_mem _ hz) (hxs z hz) hzf
      · exact hnd.2
    · rw [Bool.not_eq_true] at hx
      have hone2 : (xs.filter p).length ≤ 1 := by
        rw [List.filter_cons_of_neg (by simp [hx])] at hone
        exact hone
      simp only [replaceFirst, hx, Bool.false_eq_true, if_false, List.map_cons,
        List.nodup_cons]
      constructor
      · intro hmem
        rcases List.mem_map.1 hmem with ⟨z, hz, hzf⟩
        rcases mem_of_mem_replaceFirst p y xs z hz with h2 | h2
        · exact hdiff x (List.mem_cons_self _ _) hx (by rw [← hzf, h2])
        · exact hnd.1 (hzf ▸ List.mem_map_of_mem f h2)
      · exact ih hnd.2 hone2
          (fun z hz hzp => hdiff z (List.mem_cons_of_mem _ hz) hzp)

@[simp] lemma jsTruthyS_none : jsTruthyS none = false := rfl

@[simp] lemma jsTruthyI_none : jsTruthyI none = false := rfl

lemma updateFirst_of_id_fun {α : Type} (p : α → Bool) :
    ∀ l : List α, updateFirst p (fun x => x) l = (l, l.find? p) := by
  intro l
  induction l with
  | nil => simp [updateFirst]
  | cons x xs ih =>
    by_cases hx : p x
    · simp [updateFirst, hx]
    · rw [Bool.not_eq_true] at hx
      simp [updateFirst, hx, ih]

lemma jsTruthyS_normS (a : Option String) :
    jsTruthyS (normS a) = jsTruthyS a := by
  cases h : jsTruthyS a <;> simp [normS, h]

lemma jsTruthyI_normI (a : Option Int) :
    jsTruthyI (normI a) = jsTruthyI a := by
  cases h : jsTruthyI a <;> simp [normI, h]

lemma normS_of_truthy (a : Option String) (h : jsTruthyS a = true) :
    normS a = a := by
  simp [normS, h]

lemma normS_of_falsy (a : Option String) (h : jsTruthyS a = false) :
    normS a = none := by
  simp [normS, h]

lemma normI_of_truthy (a : Option Int) (h : jsTruthyI a = true) :
    normI a = a := by
  simp [normI, h]

lemma normI_of_falsy (a : Option Int) (h : jsTruthyI a = false) :
    normI a = none := by
  simp [normI, h]

lemma mergeReqS_normS (a : Option String) (old : String) :
    mergeReqS (normS a) old = mergeReqS a old := by
  cases h : jsTruthyS a
  · rw [normS_of_falsy a h]
    simp [mergeReqS, h]
  · rw [normS_of_truthy a h]

lemma mergeOptS_normS (a : Option String) (old : Option String) :
    mergeOptS (normS a) old = mergeOptS a old := by
  cases h : jsTruthyS a
  · rw [normS_of_falsy a h]
    simp [mergeOptS, h]
  · rw [normS_of_truthy a h]

lemma mergeOptI_normI (a : Option Int) (old : Option Int) :
    mergeOptI (normI a) old = mergeOptI a old := by
  cases h : jsTruthyI a
  · rw [normI_of_falsy a h]
    simp [mergeOptI, h]
  · rw [normI_of_truthy a h]

lemma mergeBook_normalize (args : Embedded.UpdateBookArgs)
    (book : Embedded.Book) :
    Embedded.mergeBook (Embedded.normalizeUpdateArgs args) book =
      Embedded.mergeBook args book := by
  simp [Embedded.mergeBook, Embedded.normalizeUpdateArgs, mergeReqS_normS,
    mergeOptS_normS, mergeOptI_normI]

lemma mergeBook_noneArgs (i : String) (book : Embedded.Book) :
    Embedded.mergeBook (Embedded.noneArgs i) book = book := by
  simp [Embedded.mergeBook, Embedded.noneArgs, mergeReqS, mergeOptS,
    mergeOptI, jsTruthyS, jsTruthyI]

lemma updateBook_normalize_embedded (books : List Embedded.Book)
    (args : Embedded.UpdateBookArgs) :
    Embedded.updateBook books (Embedded.normalizeUpdateArgs args) =
      Embedded.updateBook books args := by
  unfold Embedded.updateBook
  have hid : (Embedded.normalizeUpdateArgs args).id = args.id := rfl
  rw [hid]
  have hf : Embedded.mergeBook (Embedded.normalizeUpdateArgs args) =
      Embedded.mergeBook args := funext (fun b => mergeBook_normalize args b)
  rw [hf]

lemma mergeBookData_normalize (args : Proxy.UpdateBookArgs)
    (book : Proxy.Book) :
    Proxy.mergeBookData (Proxy.normalizeUpdateArgs args) book =
      Proxy.mergeBookData args book := by
  cases h : jsTruthyS args.authorId
  · simp [Proxy.mergeBookData, Proxy.normalizeUpdateArgs, mergeReqS_normS,
      mergeOptS_normS, mergeOptI_normI, jsTruthyS_normS, h,
      normS_of_falsy args.authorId h]
  · simp [Proxy.mergeBookData, Proxy.normalizeUpdateArgs, mergeReqS_normS,
      mergeOptS_normS, mergeOptI_normI, jsTruthyS_normS, h,
      normS_of_truthy args.authorId h]

lemma updateBook_normalize_proxy (st : Proxy.RestState)
    (args : Proxy.UpdateBookArgs) :
    Proxy.updateBook st (Proxy.normalizeUpdateArgs args) =
      Proxy.updateBook st args := by
  have hid : (Proxy.normalizeUpdateArgs args).id = args.id := rfl
  have ht : (Proxy.normalizeUpdateArgs args).title = normS args.title := rfl
  have ha : (Proxy.normalizeUpdateArgs args).authorId = normS args.authorId :=
    rfl
  unfold Proxy.updateBook
  rw [hid]
  cases hfind : st.books.find? (fun b => b.id == args.id) with
  | none => rfl
  | some book =>
    dsimp only
    rw [mergeBookData_normalize]
    by_cases hT : jsTruthyS args.title = true
    · by_cases hA : jsTruthyS args.authorId = true
      · simp only [ht, ha, normS_of_truthy args.title hT,
          normS_of_truthy args.authorId hA]
      · rw [Bool.not_eq_true] at hA
        simp [ht, ha, normS_of_truthy args.title hT,
          normS_of_falsy args.authorId hA, hA]
    · rw [Bool.not_eq_true] at hT
      by_cases hA : jsTruthyS args.authorId = true
      · simp [ht, ha, normS_of_falsy args.title hT,
          normS_of_truthy args.authorId hA, hT]
      · rw [Bool.not_eq_true] at hA
        simp [ht, ha, normS_of_falsy args.title hT,
          normS_of_falsy args.authorId hA, hT, hA]

def bookA : Embedded.Book :=
  { id := "1", title := "A", description := none, isbn := none,
    publisher := "P", gender := "NONE", publishYear := none,
    authorName := "X", authorNationality := none }

def bookB : Embedded.Book :=
  { id := "2", title := "B", description := none, isbn := none,
    publisher := "P", gender := "NONE", publishYear := none,
    authorName := "Y", authorNationality := none }

/-- Update arguments renaming book 2 to the title of book 1. -/
def retitleArgs : Embedded.UpdateBookArgs :=
  { id := "2", title := some "A", description := none, isbn := none,
    publisher := none, gender := none, publishYear := none,
    authorName := none, authorNationality := none }

def authorP : Proxy.Author :=
  { id := "a1", name := "Kate Chopin", nationality := none }

def bookP : Proxy.Book :=
  { id := "b1", title := "The Awakening", description := some "a novel",
    isbn := none, publisher := "W W Norton", gender := "NONE",
    year := some 1899, author_id := some "a1", authorName := none }

def stP : Proxy.RestState := { authors := [authorP], books := [bookP] }

def paddArgs : Proxy.AddBookArgs :=
  { title := "City of Glass", description := none, isbn := none,
    publisher := "Simon", gender := "FANTASY", year := some 2009,
    authorId := "a1" }

def puArgs : Proxy.UpdateBookArgs :=
  { id := "b1", title := none, description := some "updated", isbn := none,
    publisher := none, gender := none, year := none, authorId := none }

/-- C1: the amended uniqueness invariant. After any successful addBook in
the embedded variant, after any successful addBook in the proxy variant,
and after any successful updateBook in the proxy variant (whose backing
store has pairwise distinct record ids), the book titles remain pairwise
distinct. The claim as frozen also asserts this for the embedded
updateBook, which performs no title-uniqueness check; the counterexample
shows that part fails. -/
theorem C1_theorem (ebooks : List Embedded.Book)
    (eargs : Embedded.AddBookArgs) (nid : String) (st : Proxy.RestState)
    (pargs : Proxy.AddBookArgs) (pid : String)
    (uargs : Proxy.UpdateBookArgs)
    (hE : (ebooks.map (fun b => b.title)).Nodup)
    (hP : (st.books.map (fun b => b.title)).Nodup)
    (hIds : (st.books.map (fun b => b.id)).Nodup) :
    (∀ bs bk, Embedded.addBook ebooks eargs nid = .ok (bs, bk) →
      (bs.map (fun b => b.title)).Nodup) ∧
    (∀ st2 bk, Proxy.addBook st pargs pid = .ok (st2, bk) →
      (st2.books.map (fun b => b.title)).Nodup) ∧
    (∀ st2 bk, Proxy.updateBook st uargs = .ok (st2, bk) →
      (st2.books.map (fun b => b.title)).Nodup) := by
  refine ⟨?_, ?_, ?_⟩
  · intro bs bk h
    by_cases hf : (ebooks.find? (fun b => b.title == eargs.title)).isSome
    · simp [Embedded.addBook, hf] at h
    · have hnone : ebooks.find? (fun b => b.title == eargs.title) = none :=
        Option.not_isSome_iff_eq_none.1 hf
      simp only [Embedded.addBook, hnone, Option.isSome_none,
        Bool.false_eq_true, if_false, Except.ok.injEq, Prod.mk.injEq] at h
      rw [← h.1, List.map_append, List.nodup_append]
      refine ⟨hE, List.nodup_singleton _, ?_⟩
      intro t htmem hsing
      simp only [List.map_cons, List.map_nil, List.mem_singleton] at hsing
      rcases List.mem_map.1 htmem with ⟨z, hz, hzt⟩
      have := List.find?_eq_none.1 hnone z hz
      rw [hzt, hsing] at this
      simp at this
  · intro st2 bk h
    by_cases hf : 0 < (st.books.filter (fun b => b.title == pargs.title)).length
    · simp [Proxy.addBook, hf] at h
    · have hempty : st.books.filter (fun b => b.title == pargs.title) = [] := by
        rw [List.length_pos] at hf
        exact of_not_not (fun hne => hf hne)
      by_cases ha : (st.authors.find? (fun a => a.id == pargs.authorId)).isNone
      · simp [Proxy.addBook, hf, ha] at h
      · simp only [Proxy.addBook, if_neg hf, ha, Bool.false_eq_true, if_false,
          Except.ok.injEq, Prod.mk.injEq] at h
        rw [← h.1]
        simp only [List.map_append, List.nodup_append]
        refine ⟨hP, List.nodup_singleton _, ?_⟩
        intro t htmem hsing
        simp only [List.map_cons, List.map_nil, List.mem_singleton] at hsing
        rcases List.mem_map.1 htmem with ⟨z, hz, hzt⟩
        have hzf := List.filter_eq_nil_iff.1 hempty z hz
        rw [hzt, hsing] at hzf
        simp at hzf
  · intro st2 bk h
    unfold Proxy.updateBook at h
    cases hfind : st.books.find? (fun b => b.id == uargs.id) with
    | none => rw [hfind] at h; simp at h
    | some book =>
      rw [hfind] at h
      dsimp only at h
      have hbid := List.find?_some hfind
      have hbideq : book.id = uargs.id := by
        simpa [beq_iff_eq] using hbid
      split at h
      · simp at h
      · split at h
        · simp at h
        · rename_i hc1 hc2
          simp only [Except.ok.injEq, Prod.mk.injEq] at h
          have hbooks : st2.books = replaceFirst (fun b => b.id == book.id)
              (Proxy.mergeBookData uargs book) st.books := by
            rw [← h.1]
          rw [hbooks]
          apply nodup_map_replaceFirst _ _ _ _ hP
          · exact length_filter_key_le_one (fun b => b.id) book.id st.books hIds
          · intro x hx hxid
            by_cases hT : jsTruthyS uargs.title = true
            · have hlen : ¬ 0 < (st.books.filter
                  (fun b => some b.title == uargs.title && !(b.id == uargs.id))).length := by
                intro hpos
                exact hc1 ⟨hT, hpos⟩
              have hemp : st.books.filter
                  (fun b => some b.title == uargs.title && !(b.id == uargs.id)) = [] := by
                rw [List.length_pos] at hlen
                exact of_not_not (fun hne => hlen hne)
              have hxf := List.filter_eq_nil_iff.1 hemp x hx
              intro hteq
              apply hxf
              have hxid2 : (x.id == uargs.id) = false := by rwa [hbideq] at hxid
              cases htv : uargs.title with
              | none => rw [htv] at hT; simp [jsTruthyS] at hT
              | some t =>
                rw [htv] at hT
                have htitle : (Proxy.mergeBookData uargs book).title = t := by
                  simp [Proxy.mergeBookData, mergeReqS, htv, hT]
                rw [htitle] at hteq
                simp [htv, hxid2, hteq]
            · rw [Bool.not_eq_true] at hT
              have htitle : (Proxy.mergeBookData uargs book).title = book.title := by
                simp [Proxy.mergeBookData, mergeReqS, hT]
              rw [htitle]
              intro hteq
              have hmem := List.mem_of_find?_eq_some hfind
              have := List.inj_on_of_nodup_map hP hx hmem hteq
              rw [this] at hxid
              simp at hxid

/-- C1 counterexample: on a collection of two books with distinct titles,
the embedded updateBook succeeds in renaming the second book to the first
book's title, leaving two distinct books with equal titles, so title
uniqueness does not hold after every successful embedded update. -/
theorem C1_counterexample :
    (Embedded.updateBook [bookA, bookB] retitleArgs).2.isSome = true ∧
    (([bookA, bookB].map (fun b => b.title)).Nodup) ∧
    ¬ (((Embedded.updateBook [bookA, bookB] retitleArgs).1.map
        (fun b => b.title)).Nodup) := by
  refine ⟨by decide, by decide, by decide⟩

/-- C1 witness: a concrete successful embedded addBook on a one-book
collection keeps titles pairwise distinct. -/
theorem C1_witness :
    (([bookA, sampleBook].map (fun b => b.title)).Nodup) :=
  (C1_theorem [bookA] sampleArgs "id1" stP paddArgs "b2" puArgs
      (by decide) (by decide) (by decide)).1
    [bookA, sampleBook] sampleBook (by decide)

/-- The record left in the store by updating bookP with only a
description: every other field keeps its prior value except author_id,
which the slip of the proxy merge sets to the record's absent authorName
key. -/
def bookPupdated : Proxy.Book :=
  { id := "b1", title := "The Awakening", description := some "updated",
    isbn := none, publisher := "W W Norton", gender := "NONE",
    year := some 1899, author_id := none, authorName := none }

/-- C2: evaluation of the proxy updateBook at the failing input. Updating
the stored book b1 (whose author_id is a1) with only the description
argument yields a record whose description changed but whose author_id
is no longer a1: the merge falls back to book.authorName, which proxy
records do not carry, instead of book.author_id, so the omitted author
reference is not preserved. -/
theorem C2_theorem :
    Proxy.updateBook stP puArgs =
      .ok ({ authors := [authorP], books := [bookPupdated] }, bookPupdated) ∧
    puArgs.authorId = none ∧
    bookP.author_id = some "a1" ∧
    bookPupdated.author_id ≠ bookP.author_id := by
  refine ⟨by decide, rfl, rfl, by decide⟩

/-- C3: creating a book whose title equals an existing book's title fails
with the BAD_USER_INPUT GraphQLError naming the title, and the
collection is unchanged, in the embedded and the proxy variant. -/
theorem C3_theorem (ebooks : List Embedded.Book)
    (eargs : Embedded.AddBookArgs) (nid : String) (st : Proxy.RestState)
    (pargs : Proxy.AddBookArgs) (pid : String)
    (he : (ebooks.find? (fun b => b.title == eargs.title)).isSome = true)
    (hp : 0 < (st.books.filter (fun b => b.title == pargs.title)).length) :
    Embedded.addBook ebooks eargs nid =
      .error (.graphQLError "Title must be unique" "BAD_USER_INPUT") ∧
    stateAfter ebooks (Embedded.addBook ebooks eargs nid) = ebooks ∧
    Proxy.addBook st pargs pid =
      .error (.graphQLError "El título del libro ya existe"
        "BAD_USER_INPUT") ∧
    stateAfter st (Proxy.addBook st pargs pid) = st := by
  have h1 : Embedded.addBook ebooks eargs nid =
      .error (.graphQLError "Title must be unique" "BAD_USER_INPUT") := by
    unfold Embedded.addBook
    rw [if_pos he]
  have h2 : Proxy.addBook st pargs pid =
      .error (.graphQLError "El título del libro ya existe"
        "BAD_USER_INPUT") := by
    unfold Proxy.addBook
    rw [if_pos hp]
  exact ⟨h1, by rw [h1]; rfl, h2, by rw [h2]; rfl⟩

/-- Create arguments that duplicate the title of bookA. -/
def dupArgs : Embedded.AddBookArgs :=
  { title := "A", description := none, isbn := none, publisher := "Q",
    gender := "NONE", publishYear := none, authorName := "Z",
    authorNationality := none }

/-- Create arguments that duplicate the title of the stored proxy book. -/
def pdupArgs : Proxy.AddBookArgs :=
  { title := "The Awakening", description := none, isbn := none,
    publisher := "Q", gender := "NONE", year := none, authorId := "a1" }

/-- C3 witness at a concrete duplicate title in each variant. -/
theorem C3_witness :
    Embedded.addBook [bookA] dupArgs "id9" =
      .error (.graphQLError "Title must be unique" "BAD_USER_INPUT") ∧
    stateAfter [bookA] (Embedded.addBook [bookA] dupArgs "id9") = [bookA] ∧
    Proxy.addBook stP pdupArgs "id9" =
      .error (.graphQLError "El título del libro ya existe"
        "BAD_USER_INPUT") ∧
    stateAfter stP (Proxy.addBook stP pdupArgs "id9") = stP :=
  C3_theorem [bookA] dupArgs "id9" stP pdupArgs "id9" (by decide) (by decide)

/-- C4: a proxy addBook whose title passes the uniqueness check but whose
authorId resolves to no author fails with the BAD_USER_INPUT
GraphQLError naming the invalid author id, and nothing is written. -/
theorem C4_theorem (st : Proxy.RestState) (pargs : Proxy.AddBookArgs)
    (pid : String)
    (htitle : (st.books.filter (fun b => b.title == pargs.title)).length = 0)
    (hauthor : st.authors.find? (fun a => a.id == pargs.authorId) = none) :
    Proxy.addBook st pargs pid =
      .error (.graphQLError
        ("No existe el autor con el ID: " ++ pargs.authorId)
        "BAD_USER_INPUT") ∧
    stateAfter st (Proxy.addBook st pargs pid) = st := by
  have h1 : Proxy.addBook st pargs pid =
      .error (.graphQLError
        ("No existe el autor con el ID: " ++ pargs.authorId)
        "BAD_USER_INPUT") := by
    unfold Proxy.addBook
    rw [if_neg (by rw [htitle]; exact lt_irrefl 0),
      if_pos (by rw [hauthor]; rfl)]
  exact ⟨h1, by rw [h1]; rfl⟩

/-- Create arguments whose author id a9 is not in the proxy store. -/
def pbadAuthorArgs : Proxy.AddBookArgs :=
  { title := "Fresh Title", description := none, isbn := none,
    publisher := "Q", gender := "NONE", year := none, authorId := "a9" }

/-- C4 witness at a concrete missing author id. -/
theorem C4_witness :
    Proxy.addBook stP pbadAuthorArgs "id9" =
      .error (.graphQLError
        ("No existe el autor con el ID: " ++ pbadAuthorArgs.authorId)
        "BAD_USER_INPUT") ∧
    stateAfter stP (Proxy.addBook stP pbadAuthorArgs "id9") = stP :=
  C4_theorem stP pbadAuthorArgs "id9" (by decide) (by decide)

/-- C5: deleting an id absent from the data source returns null and
leaves the collection unchanged without raising in the embedded variant,
and fails with the BAD_USER_INPUT not-found GraphQLError naming the id
in the proxy variant. -/
theorem C5_theorem (ebooks : List Embedded.Book) (eid : String)
    (st : Proxy.RestState) (pid2 : String)
    (he : ebooks.any (fun b => b.id == eid) = false)
    (hp : st.books.find? (fun b => b.id == pid2) = none) :
    Embedded.deleteBook ebooks eid = (ebooks, none) ∧
    Proxy.deleteBook st pid2 =
      .error (.graphQLError ("No existe el libro con el ID: " ++ pid2)
        "BAD_USER_INPUT") := by
  constructor
  · exact deleteFirst_of_not_any _ ebooks he
  · unfold Proxy.deleteBook
    rw [hp]

/-- C5 witness at a concrete absent id in each variant. -/
theorem C5_witness :
    Embedded.deleteBook [bookA] "zz" = ([bookA], none) ∧
    Proxy.deleteBook stP "zz" =
      .error (.graphQLError ("No existe el libro con el ID: " ++ "zz")
        "BAD_USER_INPUT") :=
  C5_theorem [bookA] "zz" stP "zz" (by decide) (by decide)

/-- C6: the amended error classification of the proxy mutation steps,
with the outcome of each backing-store call injected. At every step a
connection-refused rejection raises the fixed infrastructure Error; any
other rejection of a uniqueness-check GET or of the commit POST is
re-raised as an Error with its original message; any other rejection of
the author-existence GET of addBook is instead classified as the
BAD_USER_INPUT missing-author GraphQLError; only the user-input errors
carry the BAD_USER_INPUT code. The claim as frozen asserts the
re-raise-with-original-message rule for every step; the counterexample
shows it fails at the author-existence step. -/
theorem C6_theorem (aid msg : String) (au : Proxy.Author) (bk : Proxy.Book)
    (authorCheck : HttpOutcome Proxy.Author) (post : HttpOutcome Proxy.Book)
    (post2 : HttpOutcome Proxy.Author) :
    (Proxy.addBookSteps aid .connRefused authorCheck post =
      .error (.jsError "Error al conectar con el API")) ∧
    (Proxy.addBookSteps aid (.failure msg) authorCheck post =
      .error (.jsError msg)) ∧
    (Proxy.addBookSteps aid (.ok []) .connRefused post =
      .error (.jsError "Error al conectar con el API")) ∧
    (Proxy.addBookSteps aid (.ok []) (.failure msg) post =
      .error (.graphQLError ("No existe el autor con el ID: " ++ aid)
        "BAD_USER_INPUT")) ∧
    (Proxy.addBookSteps aid (.ok []) (.ok au) .connRefused =
      .error (.jsError "Error al conectar con el API")) ∧
    (Proxy.addBookSteps aid (.ok []) (.ok au) (.failure msg) =
      .error (.jsError msg)) ∧
    (Proxy.addBookSteps aid (.ok []) (.ok au) (.ok bk) = .ok bk) ∧
    (Proxy.addAuthorSteps .connRefused post2 =
      .error (.jsError "Error al conectar con el API")) ∧
    (Proxy.addAuthorSteps (.failure msg) post2 = .error (.jsError msg)) ∧
    (Proxy.addAuthorSteps (.ok []) .connRefused =
      .error (.jsError "Error al conectar con el API")) ∧
    (Proxy.addAuthorSteps (.ok []) (.failure msg) =
      .error (.jsError msg)) ∧
    (Proxy.addAuthorSteps (.ok []) (.ok au) = .ok au) :=
  ⟨rfl, rfl, rfl, rfl, rfl, rfl, rfl, rfl, rfl, rfl, rfl, rfl⟩

/-- C6 counterexample: a non-connection backing-store failure (an
internal server error) at the author-existence step of the proxy addBook
is not re-raised with its original message: it is classified as the
BAD_USER_INPUT missing-author error instead. -/
theorem C6_counterexample :
    Proxy.addBookSteps "a1" (.ok []) (.failure "Internal Server Error")
        (.ok bookP) =
      .error (.graphQLError ("No existe el autor con el ID: " ++ "a1")
        "BAD_USER_INPUT") ∧
    (Except.error (.graphQLError ("No existe el autor con el ID: " ++ "a1")
        "BAD_USER_INPUT") : Except JsError Proxy.Book) ≠
      .error (.jsError "Internal Server Error") := by
  exact ⟨rfl, by decide⟩

/-- C7: getAllBooksByAuthorName returns an empty array, not null and not
an error, both when no author matches the name (the undefined
dereference author[0].id is swallowed by the catch handler) and when the
matched author has no books. -/
theorem C7_theorem (st : Proxy.RestState) (nm : String)
    (st2 : Proxy.RestState) (nm2 : String) (a : Proxy.Author)
    (hnone : st.authors.filter (fun x => x.name == nm) = [])
    (hhead : (st2.authors.filter (fun x => x.name == nm2)).head? = some a)
    (hnobooks : st2.books.filter (fun b => b.author_id == some a.id) = []) :
    Proxy.getAllBooksByAuthorName st nm = .ok [] ∧
    Proxy.getAllBooksByAuthorName st2 nm2 = .ok [] := by
  constructor
  · unfold Proxy.getAllBooksByAuthorName Proxy.getAllBooksByAuthorNameBody
    rw [hnone]
    rfl
  · unfold Proxy.getAllBooksByAuthorName Proxy.getAllBooksByAuthorNameBody
    simp only [hhead, hnobooks]

/-- A proxy store whose single author has written no books. -/
def stP2 : Proxy.RestState := { authors := [authorP], books := [] }

/-- C7 witness: a name matching no author, and an author with no books. -/
theorem C7_witness :
    Proxy.getAllBooksByAuthorName stP "Nobody" = .ok [] ∧
    Proxy.getAllBooksByAuthorName stP2 "Kate Chopin" = .ok [] :=
  C7_theorem stP "Nobody" stP2 "Kate Chopin" authorP (by decide) (by decide)
    (by decide)

/-- C8: the amended falsy-argument rule. Supplying falsy optional
arguments to updateBook gives exactly the result of omitting them, in
the embedded and the proxy variant (normalizing falsy arguments to
not-provided leaves the resolver result unchanged); and in the embedded
variant an update providing no optional argument keeps the matched
record unchanged, so a falsy argument keeps the existing field value
there. The claim as frozen also asserts the kept value equals the
existing field value in the proxy variant, which fails for author_id;
see the counterexample. -/
theorem C8_theorem (books : List Embedded.Book)
    (args : Embedded.UpdateBookArgs) (st : Proxy.RestState)
    (pargs : Proxy.UpdateBookArgs) (i : String) :
    Embedded.updateBook books (Embedded.normalizeUpdateArgs args) =
      Embedded.updateBook books args ∧
    Proxy.updateBook st (Proxy.normalizeUpdateArgs pargs) =
      Proxy.updateBook st pargs ∧
    Embedded.updateBook books (Embedded.noneArgs i) =
      (books, books.find? (fun b => b.id == i)) := by
  refine ⟨updateBook_normalize_embedded books args,
    updateBook_normalize_proxy st pargs, ?_⟩
  unfold Embedded.updateBook
  have hf : Embedded.mergeBook (Embedded.noneArgs i) = fun b => b :=
    funext (fun b => mergeBook_noneArgs i b)
  rw [hf, updateFirst_of_id_fun]
  rfl

/-- Update arguments supplying only a falsy (empty string) authorId. -/
def puArgsFalsy : Proxy.UpdateBookArgs :=
  { id := "b1", title := none, description := none, isbn := none,
    publisher := none, gender := none, year := none, authorId := some "" }

/-- The record left by the falsy-authorId update: author_id has been
wiped to the record's absent authorName key. -/
def bookPwiped : Proxy.Book :=
  { id := "b1", title := "The Awakening", description := some "a novel",
    isbn := none, publisher := "W W Norton", gender := "NONE",
    year := some 1899, author_id := none, authorName := none }

/-- C8 counterexample: supplying the falsy authorId empty string to the
proxy updateBook is treated as not provided, but the resulting record
does not keep the existing author_id a1: the merge wipes it to the
absent authorName key, so the kept value is not the existing field
value. -/
theorem C8_counterexample :
    jsTruthyS puArgsFalsy.authorId = false ∧
    Proxy.updateBook stP puArgsFalsy =
      .ok ({ authors := [authorP], books := [bookPwiped] }, bookPwiped) ∧
    bookP.author_id = some "a1" ∧
    bookPwiped.author_id ≠ bookP.author_id := by
  refine ⟨by decide, by decide, rfl, by decide⟩

/-- C9: when the point lookup GET of updateBookInRestApi rejects, the
catch handler yields null and the read of responseExistsBook.status
dereferences null, so the resolver raises a TypeError rather than
returning null or a classified user-input error. -/
theorem C9_theorem (e : JsError) (args : Embedded.UpdateBookArgs)
    (put : Embedded.Book → Except JsError Embedded.Book) :
    Hybrid.updateBookInRestApi (.error e) args put = .error .typeError ∧
    Hybrid.updateBookInRestApi (.error e) args put ≠ .ok none ∧
    (∀ m c, Hybrid.updateBookInRestApi (.error e) args put ≠
      .error (.graphQLError m c)) := by
  refine ⟨rfl, by simp [Hybrid.updateBookInRestApi], ?_⟩
  intro m c
  simp [Hybrid.updateBookInRestApi]

/-- C10: in the embedded variant getBooksCount is the length of the
collection getAllBooks returns; a successful addBook (fresh title)
increases it by one, updateBook never changes it, and deleteBook of an
existing id decreases it by one. -/
theorem C10_theorem (books : List Embedded.Book)
    (aargs : Embedded.AddBookArgs) (nid : String)
    (uargs : Embedded.UpdateBookArgs) (did : String)
    (hadd : books.find? (fun b => b.title == aargs.title) = none)
    (hdel : books.any (fun b => b.id == did) = true) :
    Embedded.getBooksCount books = (Embedded.getAllBooks books).length ∧
    Embedded.getBooksCount
        (stateAfter books (Embedded.addBook books aargs nid)) =
      Embedded.getBooksCount books + 1 ∧
    Embedded.getBooksCount (Embedded.updateBook books uargs).1 =
      Embedded.getBooksCount books ∧
    Embedded.getBooksCount (Embedded.deleteBook books did).1 + 1 =
      Embedded.getBooksCount books := by
  refine ⟨rfl, ?_, ?_, ?_⟩
  · simp [Embedded.addBook, hadd, stateAfter, Embedded.getBooksCount]
  · exact updateFirst_fst_length _ _ books
  · exact deleteFirst_length_of_any _ books hdel

/-- C10 witness on a concrete two-book collection. -/
theorem C10_witness :
    Embedded.getBooksCount [bookA, bookB] =
      (Embedded.getAllBooks [bookA, bookB]).length ∧
    Embedded.getBooksCount
        (stateAfter [bookA, bookB]
          (Embedded.addBook [bookA, bookB] sampleArgs "id7")) =
      Embedded.getBooksCount [bookA, bookB] + 1 ∧
    Embedded.getBooksCount
        (Embedded.updateBook [bookA, bookB] retitleArgs).1 =
      Embedded.getBooksCount [bookA, bookB] ∧
    Embedded.getBooksCount (Embedded.deleteBook [bookA, bookB] "1").1 + 1 =
      Embedded.getBooksCount [bookA, bookB] :=
  C10_theorem [bookA, bookB] sampleArgs "id7" retitleArgs "1" (by decide)
    (by decide)
